import Mathlib

/-
Verification of the event-ingestion lambda functions:
  src/lambda/lambda_function.py        (event handler: parse, map, insert)
  src/lambda/setup_database_lambda.py  (schema bootstrap handler)

The Python code is shallowly embedded: parsed JSON values are an inductive
type, every external effect (secret store, warehouse connection, statement
execution) is an outcome recorded in an explicit world/state record, and a
Python exception crossing a function boundary is an `Except.error`.
-/

set_option maxHeartbeats 1000000

/-- Model of a parsed JSON value (the result of json.loads), which is also the
value domain of the Python dictionaries the handlers manipulate.  Python None
(the result of dict.get on a missing key, and the parse of JSON null) is
represented by `JVal.null`.  Numbers are modelled as integers, which covers the
millisecond timestamps and counters the payload carries. -/
inductive JVal where
  | null : JVal
  | bool (b : Bool) : JVal
  | num (n : Int) : JVal
  | str (s : String) : JVal
  | arr (xs : List JVal) : JVal
  | obj (m : List (String × JVal)) : JVal

/-- Python dict.get(k): the stored value when the key is present, None when
absent. -/
def dget (m : List (String × JVal)) (k : String) : JVal :=
  match m.lookup k with
  | some v => v
  | none => JVal.null

/-- Python dict.get(k, d) with an explicit default value. -/
def pyGetD (m : List (String × JVal)) (k : String) (d : JVal) : JVal :=
  match m.lookup k with
  | some v => v
  | none => d

/-- Python value.get(...) availability: only dict values carry a .get method;
calling .get on any other shape raises AttributeError, modelled as an error. -/
def asObj : JVal → Except Unit (List (String × JVal))
  | JVal.obj m => Except.ok m
  | _ => Except.error ()

/-- Python v.get(k) on an arbitrary value: dict lookup, AttributeError on any
non-dict value. -/
def pyAttrGet (v : JVal) (k : String) : Except Unit JVal :=
  match v with
  | JVal.obj m => Except.ok (dget m k)
  | _ => Except.error ()

/-- Python truthiness of a JSON-shaped value, as used in `if not credentials`. -/
def pyFalsy : JVal → Bool
  | JVal.null => true
  | JVal.bool b => !b
  | JVal.num n => n == 0
  | JVal.str s => s.isEmpty
  | JVal.arr xs => xs.isEmpty
  | JVal.obj m => m.isEmpty

/-- Substring test on character lists: the needle occurs contiguously in the
haystack. -/
def charsContain (needle : List Char) : List Char → Bool
  | [] => needle.isEmpty
  | c :: rest => needle.isPrefixOf (c :: rest) || charsContain needle rest

/-- Python membership test (k in v) on a parsed JSON value: key lookup on a
dict, element equality on a list (a string compares equal only to an equal
string), substring test on a string; TypeError on every other shape. -/
def pyContains : JVal → String → Except Unit Bool
  | JVal.obj m, k => Except.ok (m.lookup k).isSome
  | JVal.arr xs, k =>
    Except.ok (xs.any (fun x => match x with | JVal.str s => s == k | _ => false))
  | JVal.str s, k => Except.ok (charsContain k.data s.data)
  | _, _ => Except.error ()

/-- Lower-case hexadecimal digit, for the escape sequences of json.dumps. -/
def hexDigit (d : Nat) : Char :=
  if d < 10 then Char.ofNat (48 + d) else Char.ofNat (87 + d)

/-- Four lower-case hexadecimal digits. -/
def hex4 (n : Nat) : List Char :=
  [hexDigit (n / 4096 % 16), hexDigit (n / 256 % 16), hexDigit (n / 16 % 16), hexDigit (n % 16)]

/-- Escaping of one character inside a JSON string literal, following
json.dumps with its default ensure_ascii=True (short escapes for the common
control characters, \uXXXX for the rest, surrogate pairs above the BMP). -/
def jsonEscapeChar (c : Char) : List Char :=
  if c = Char.ofNat 34 then [Char.ofNat 92, Char.ofNat 34]
  else if c = Char.ofNat 92 then [Char.ofNat 92, Char.ofNat 92]
  else if c = Char.ofNat 8 then [Char.ofNat 92, 'b']
  else if c = Char.ofNat 9 then [Char.ofNat 92, 't']
  else if c = Char.ofNat 10 then [Char.ofNat 92, 'n']
  else if c = Char.ofNat 12 then [Char.ofNat 92, 'f']
  else if c = Char.ofNat 13 then [Char.ofNat 92, 'r']
  else if c.toNat < 32 then Char.ofNat 92 :: 'u' :: hex4 c.toNat
  else if c.toNat < 127 then [c]
  else if c.toNat < 65536 then Char.ofNat 92 :: 'u' :: hex4 c.toNat
  else
    let n := c.toNat - 65536
    Char.ofNat 92 :: 'u' :: hex4 (55296 + n / 1024) ++ Char.ofNat 92 :: 'u' :: hex4 (56320 + n % 1024)

/-- A JSON string literal: the escaped text between double quotes. -/
def jsonQuote (s : String) : String :=
  "\"" ++ String.mk (s.data.map jsonEscapeChar).flatten ++ "\""

mutual

/-- json.dumps with its default separators, on the JSON value domain. -/
def jdumps : JVal → String
  | JVal.null => "null"
  | JVal.bool true => "true"
  | JVal.bool false => "false"
  | JVal.num n => toString n
  | JVal.str s => jsonQuote s
  | JVal.arr xs => "[" ++ jdumpsElems xs ++ "]"
  | JVal.obj m => "\x7b" ++ jdumpsMembers m ++ "\x7d"

/-- Comma-separated serialized elements of a JSON array. -/
def jdumpsElems : List JVal → String
  | [] => ""
  | [x] => jdumps x
  | x :: y :: xs => jdumps x ++ ", " ++ jdumpsElems (y :: xs)

/-- Comma-separated serialized members of a JSON object. -/
def jdumpsMembers : List (String × JVal) → String
  | [] => ""
  | [(k, v)] => jsonQuote k ++ ": " ++ jdumps v
  | (k, v) :: y :: xs => jsonQuote k ++ ": " ++ jdumps v ++ ", " ++ jdumpsMembers (y :: xs)

end

mutual

/-- Python repr of a JSON-shaped value, as print(credentials) renders a dict;
string escaping inside repr is elided since the credential text is plain. -/
def pyRepr : JVal → String
  | JVal.null => "None"
  | JVal.bool true => "True"
  | JVal.bool false => "False"
  | JVal.num n => toString n
  | JVal.str s => "\x27" ++ s ++ "\x27"
  | JVal.arr xs => "[" ++ pyReprElems xs ++ "]"
  | JVal.obj m => "\x7b" ++ pyReprMembers m ++ "\x7d"

/-- Comma-separated repr of the elements of a list. -/
def pyReprElems : List JVal → String
  | [] => ""
  | [x] => pyRepr x
  | x :: y :: xs => pyRepr x ++ ", " ++ pyReprElems (y :: xs)

/-- Comma-separated repr of the members of a dict. -/
def pyReprMembers : List (String × JVal) → String
  | [] => ""
  | [(k, v)] => "\x27" ++ k ++ "\x27" ++ ": " ++ pyRepr v
  | (k, v) :: y :: xs => "\x27" ++ k ++ "\x27" ++ ": " ++ pyRepr v ++ ", " ++ pyReprMembers (y :: xs)

end

/-- Python str() of a value, as print and f-strings render it. -/
def pyStr : JVal → String
  | JVal.str s => s
  | v => pyRepr v

/-- The fields of a Python datetime value. -/
structure PyDateTime where
  year : Nat
  month : Nat
  day : Nat
  hour : Nat
  minute : Nat
  second : Nat
  microsecond : Nat

/-- Decimal digit character. -/
def digitChar (d : Nat) : Char := Char.ofNat (48 + d)

/-- Two-digit zero-padded decimal rendering. -/
def pad2 (n : Nat) : List Char := [digitChar (n / 10), digitChar (n % 10)]

/-- Four-digit zero-padded decimal rendering. -/
def pad4 (n : Nat) : List Char :=
  [digitChar (n / 1000), digitChar (n / 100 % 10), digitChar (n / 10 % 10), digitChar (n % 10)]

/-- Six-digit zero-padded decimal rendering. -/
def pad6 (n : Nat) : List Char :=
  [digitChar (n / 100000), digitChar (n / 10000 % 10), digitChar (n / 1000 % 10),
   digitChar (n / 100 % 10), digitChar (n / 10 % 10), digitChar (n % 10)]

/-- datetime.isoformat(): YYYY-MM-DDTHH:MM:SS, with .ffffff appended exactly
when the microsecond field is nonzero. -/
def isoformat (d : PyDateTime) : String :=
  String.mk (pad4 d.year ++ '-' :: pad2 d.month ++ '-' :: pad2 d.day ++
    'T' :: pad2 d.hour ++ ':' :: pad2 d.minute ++ ':' :: pad2 d.second ++
    (if d.microsecond = 0 then [] else '.' :: pad6 d.microsecond))

/-- Decimal digit test on a character. -/
def isDigitChar (c : Char) : Bool := 48 ≤ c.toNat && c.toNat ≤ 57

/-- Checker for the two ISO-8601 date-time shapes datetime.isoformat can
produce (with and without a fractional-seconds part). -/
def validISO8601List : List Char → Bool
  | y1 :: y2 :: y3 :: y4 :: sep1 :: m1 :: m2 :: sep2 :: d1 :: d2 ::
      sepT :: h1 :: h2 :: sep3 :: n1 :: n2 :: sep4 :: s1 :: s2 :: rest =>
    isDigitChar y1 && isDigitChar y2 && isDigitChar y3 && isDigitChar y4 &&
    isDigitChar m1 && isDigitChar m2 && isDigitChar d1 && isDigitChar d2 &&
    isDigitChar h1 && isDigitChar h2 && isDigitChar n1 && isDigitChar n2 &&
    isDigitChar s1 && isDigitChar s2 &&
    (sep1 == '-') && (sep2 == '-') && (sepT == 'T') && (sep3 == ':') && (sep4 == ':') &&
    (match rest with
     | [] => true
     | dot :: us => (dot == '.') && (us.length == 6) && us.all isDigitChar)
  | _ => false

/-- Validity of a string as an ISO-8601 date-time. -/
def validISO8601 (s : String) : Bool := validISO8601List s.data

/-- Field ranges every datetime value constructed by the library satisfies. -/
def ValidDT (d : PyDateTime) : Prop :=
  1 ≤ d.year ∧ d.year ≤ 9999 ∧ 1 ≤ d.month ∧ d.month ≤ 12 ∧ 1 ≤ d.day ∧ d.day ≤ 31 ∧
  d.hour ≤ 23 ∧ d.minute ≤ 59 ∧ d.second ≤ 59 ∧ d.microsecond ≤ 999999

instance (d : PyDateTime) : Decidable (ValidDT d) := by
  unfold ValidDT
  infer_instance

/-- convert_timestamp from lambda_function.py.  The platform conversion
datetime.fromtimestamp(timestamp_ms / 1000.0) is abstracted as the parameter
fromts (none models the call raising, e.g. on an out-of-range or non-numeric
input); now models datetime.now().  The except branch of the source returns
datetime.now().isoformat(). -/
def convert_timestamp (fromts : JVal → Option PyDateTime) (now : PyDateTime)
    (timestamp_ms : JVal) : String :=
  match fromts timestamp_ms with
  | some dt => isoformat dt
  | none => isoformat now

namespace LambdaFunction

/-- The dict returned by extract_data_fields. -/
structure DataFields where
  data_id : JVal
  data_device : JVal
  data_marketing : JVal
  data_source : JVal
  data_medium : JVal
  data_campaign : JVal
  data_clickId : JVal
  data_term : JVal
  data_referrer : JVal
  data_storage : JVal
  data_isNew : JVal
  data_count : JVal
  data_order_id : JVal
  data_domain : JVal

/-- extract_data_fields: specific fields from the data object, each a
best-effort data.get lookup. -/
def extract_data_fields (data : List (String × JVal)) : DataFields where
  data_id := dget data "id"
  data_device := dget data "device"
  data_marketing := dget data "marketing"
  data_source := dget data "source"
  data_medium := dget data "medium"
  data_campaign := dget data "campaign"
  data_clickId := dget data "clickId"
  data_term := dget data "term"
  data_referrer := dget data "referrer"
  data_storage := dget data "storage"
  data_isNew := dget data "isNew"
  data_count := dget data "count"
  data_order_id := dget data "order_id"
  data_domain := dget data "domain"

/-- The dict returned by extract_user_fields. -/
structure UserFields where
  user_device : JVal
  user_session : JVal

/-- extract_user_fields: specific fields from the user object. -/
def extract_user_fields (user : List (String × JVal)) : UserFields where
  user_device := dget user "device"
  user_session := dget user "session"

/-- The dict returned by extract_source_fields. -/
structure SourceFields where
  source_id : JVal
  source_previous_id : JVal

/-- extract_source_fields: specific fields from the source object. -/
def extract_source_fields (source : List (String × JVal)) : SourceFields where
  source_id := dget source "id"
  source_previous_id := dget source "previous_id"

/-- The values tuple of insert_event_to_redshift (lines 127-164): the already
converted timestamp string, the extracted field dicts and the event dict are
combined into the 36 positional parameters of the INSERT statement, in source
order.  Serialized sub-objects are passed through json.dumps. -/
def rowValues (ts : String) (e : List (String × JVal))
    (dm um sm : List (String × JVal)) : List JVal :=
  let data_fields := extract_data_fields dm
  let user_fields := extract_user_fields um
  let source_fields := extract_source_fields sm
  [JVal.str ts,
   dget e "event",
   JVal.str (jdumps (pyGetD e "data" (JVal.obj []))),
   data_fields.data_id,
   data_fields.data_device,
   data_fields.data_marketing,
   data_fields.data_source,
   data_fields.data_medium,
   data_fields.data_campaign,
   data_fields.data_clickId,
   data_fields.data_term,
   data_fields.data_referrer,
   data_fields.data_storage,
   data_fields.data_isNew,
   data_fields.data_count,
   data_fields.data_order_id,
   data_fields.data_domain,
   JVal.str (jdumps (pyGetD e "context" (JVal.obj []))),
   JVal.str (jdumps (pyGetD e "custom" (JVal.obj []))),
   JVal.str (jdumps (pyGetD e "globals" (JVal.obj []))),
   JVal.str (jdumps (pyGetD e "user" (JVal.obj []))),
   user_fields.user_device,
   user_fields.user_session,
   JVal.str (jdumps (pyGetD e "nested" (JVal.arr []))),
   JVal.str (jdumps (pyGetD e "consent" (JVal.obj []))),
   dget e "id",
   dget e "trigger",
   dget e "entity",
   dget e "action",
   dget e "timing",
   dget e "group",
   dget e "count",
   JVal.str (jdumps (pyGetD e "version" (JVal.obj []))),
   JVal.str (jdumps (pyGetD e "source" (JVal.obj []))),
   source_fields.source_id,
   source_fields.source_previous_id]

/-- The mapping part of insert_event_to_redshift (lines 99-164): the event
dict is read with .get (AttributeError on a non-dict event), the timestamp is
converted, and each of the three recognized sub-objects is handed to its
extraction function, which raises AttributeError when the sub-value is present
but not a dict. -/
def mapRow (fromts : JVal → Option PyDateTime) (now : PyDateTime)
    (event_data : JVal) : Except Unit (List JVal) :=
  match asObj event_data with
  | Except.error e => Except.error e
  | Except.ok e =>
    let ts := convert_timestamp fromts now (pyGetD e "timestamp" (JVal.num 0))
    match asObj (pyGetD e "data" (JVal.obj [])) with
    | Except.error er => Except.error er
    | Except.ok dm =>
      match asObj (pyGetD e "user" (JVal.obj [])) with
      | Except.error er => Except.error er
      | Except.ok um =>
        match asObj (pyGetD e "source" (JVal.obj [])) with
        | Except.error er => Except.error er
        | Except.ok sm => Except.ok (rowValues ts e dm um sm)

/-- The 36 column names of the INSERT statement (lines 112-118), in source
order; the quoted identifiers "user" and "group" are listed by their names. -/
def insertColumns : List String :=
  ["timestamp", "event", "data", "data_id", "data_device", "data_marketing",
   "data_source", "data_medium", "data_campaign", "data_clickId", "data_term",
   "data_referrer", "data_storage", "data_isNew", "data_count", "data_order_id",
   "data_domain", "context", "custom", "globals", "user", "user_device", "user_session",
   "nested", "consent", "event_id", "trigger", "entity", "action", "timing", "group", "count",
   "version", "source", "source_id", "source_previous_id"]

/-- Outcomes of the external calls insert_event_to_redshift makes, one run of
the writer being one assignment.  connectOk covers get_redshift_connection as
a whole (credential fetch plus pg8000.Connection): when it is false the local
variable connection was never assigned.  rollbackOk and rollbackCloseOk are
the outcomes of the two cleanup calls made inside the except block, which the
source does not guard. -/
structure WriterWorld where
  connectOk : Bool
  cursorOk : Bool
  executeOk : Bool
  commitOk : Bool
  cursorCloseOk : Bool
  closeOk : Bool
  rollbackOk : Bool
  rollbackCloseOk : Bool

/-- Observable calls on the connection and cursor, in the order attempted. -/
inductive Act where
  | connect : Act
  | cursor : Act
  | execute : Act
  | commit : Act
  | cursorClose : Act
  | close : Act
  | rollback : Act
deriving DecidableEq

/-- The except block of insert_event_to_redshift when connection is in locals:
rollback then close are attempted; either raising propagates out of the
function, otherwise it returns False. -/
def writerCleanup (w : WriterWorld) (tr : List Act) : Except Unit Bool × List Act :=
  if w.rollbackOk = false then (Except.error (), tr ++ [Act.rollback])
  else if w.rollbackCloseOk = false then (Except.error (), tr ++ [Act.rollback, Act.close])
  else (Except.ok false, tr ++ [Act.rollback, Act.close])

/-- insert_event_to_redshift: connect, open a cursor, map the event to the 36
row values, execute the INSERT, commit, close cursor and connection, returning
True; any exception inside the try lands in the except block, which skips the
cleanup when the connection was never assigned and returns False. -/
def insert_event_to_redshift (fromts : JVal → Option PyDateTime) (now : PyDateTime)
    (w : WriterWorld) (event_data : JVal) : Except Unit Bool × List Act :=
  if w.connectOk = false then
    (Except.ok false, [Act.connect])
  else if w.cursorOk = false then
    writerCleanup w [Act.connect, Act.cursor]
  else
    match mapRow fromts now event_data with
    | Except.error _ => writerCleanup w [Act.connect, Act.cursor]
    | Except.ok _row =>
      if w.executeOk = false then
        writerCleanup w [Act.connect, Act.cursor, Act.execute]
      else if w.commitOk = false then
        writerCleanup w [Act.connect, Act.cursor, Act.execute, Act.commit]
      else if w.cursorCloseOk = false then
        writerCleanup w [Act.connect, Act.cursor, Act.execute, Act.commit, Act.cursorClose]
      else if w.closeOk = false then
        writerCleanup w [Act.connect, Act.cursor, Act.execute, Act.commit, Act.cursorClose, Act.close]
      else
        (Except.ok true, [Act.connect, Act.cursor, Act.execute, Act.commit, Act.cursorClose, Act.close])

/-- The HTTP-style response dict the handler returns. -/
structure HttpResponse where
  statusCode : Nat
  headers : List (String × String)
  body : String
deriving DecidableEq

/-- The header dict repeated verbatim at every return site of lambda_handler. -/
def corsHeaders : List (String × String) :=
  [("Content-Type", "application/json"),
   ("Access-Control-Allow-Origin", "*"),
   ("Access-Control-Allow-Headers", "Content-Type,X-Amz-Date,Authorization,X-Api-Key,X-Amz-Security-Token"),
   ("Access-Control-Allow-Methods", "POST,OPTIONS")]

/-- An error response: the shared headers and a json.dumps serialized
single-key error body. -/
def errResponse (status : Nat) (msg : String) : HttpResponse :=
  ⟨status, corsHeaders, jdumps (JVal.obj [("error", JVal.str msg)])⟩

/-- The list comprehension of line 219: the required fields absent from
event_data, where the membership test itself raises on a number, boolean or
null event_data. -/
def missingFields : List String → JVal → Except Unit (List String)
  | [], _ => Except.ok []
  | f :: fs, v =>
    match pyContains v f with
    | Except.error e => Except.error e
    | Except.ok c =>
      match missingFields fs v with
      | Except.error e => Except.error e
      | Except.ok rest => Except.ok (if c then rest else f :: rest)

/-- The body of the try block of lambda_handler (lines 185-260).  loads
abstracts json.loads on the body string, returning none exactly when it raises
JSONDecodeError; a body that is present but not a string makes json.loads
raise TypeError, which the inner except json.JSONDecodeError does not catch. -/
def handlerCore (loads : String → Option JVal) (fromts : JVal → Option PyDateTime)
    (now : PyDateTime) (w : WriterWorld) (req : List (String × JVal)) :
    Except Unit HttpResponse :=
  match req.lookup "body" with
  | none => Except.ok (errResponse 400 "Missing request body")
  | some (JVal.str s) =>
    match loads s with
    | none => Except.ok (errResponse 400 "Invalid JSON in request body")
    | some event_data =>
      match missingFields ["event", "timestamp"] event_data with
      | Except.error e => Except.error e
      | Except.ok missing =>
        if missing ≠ [] then
          Except.ok (errResponse 400
            ("Missing required fields: " ++ pyRepr (JVal.arr (missing.map JVal.str))))
        else
          match (insert_event_to_redshift fromts now w event_data).1 with
          | Except.error e => Except.error e
          | Except.ok true =>
            match pyAttrGet event_data "id" with
            | Except.error e => Except.error e
            | Except.ok idv =>
              Except.ok ⟨200, corsHeaders,
                jdumps (JVal.obj [("message", JVal.str "Event processed successfully"),
                                  ("event_id", idv)])⟩
          | Except.ok false => Except.ok (errResponse 500 "Failed to process event")
  | some _ => Except.error ()

/-- lambda_handler: the try body with the outermost except Exception, which
converts any escaped exception into the generic 500 response. -/
def lambda_handler (loads : String → Option JVal) (fromts : JVal → Option PyDateTime)
    (now : PyDateTime) (w : WriterWorld) (req : List (String × JVal)) : HttpResponse :=
  match handlerCore loads fromts now w req with
  | Except.ok r => r
  | Except.error _ => errResponse 500 "Internal server error"

end LambdaFunction

namespace SetupDatabaseLambda

/-- Outcome of the secrets_client.get_secret_value call together with the
json.loads of the returned SecretString.  ok carries the parsed secret;
badJson is a successful fetch whose SecretString is not valid JSON (json.loads
raises JSONDecodeError); clientError is a botocore ClientError; otherError is
any exception of another class raised by the call. -/
inductive FetchOutcome where
  | ok (secret : JVal) : FetchOutcome
  | badJson : FetchOutcome
  | clientError : FetchOutcome
  | otherError : FetchOutcome

/-- Environment and external outcomes of one run of the setup handler. -/
structure SetupWorld where
  secretName : Option String
  region : Option String
  fetch : FetchOutcome
  connectOk : Bool
  executeOk : Bool
  commitOk : Bool
  closeOk : Bool

/-- The column list of the CREATE TABLE IF NOT EXISTS events statement
(lines 47-86 of setup_database_lambda.py): name and type text, in source
order. -/
def eventsTableColumns : List (String × String) :=
  [("id", "INTEGER IDENTITY(1,1) PRIMARY KEY"),
   ("timestamp", "TIMESTAMP NOT NULL"),
   ("event", "VARCHAR(255) NOT NULL"),
   ("data", "TEXT"),
   ("data_id", "VARCHAR(255)"),
   ("data_device", "VARCHAR(255)"),
   ("data_marketing", "TEXT"),
   ("data_source", "VARCHAR(255)"),
   ("data_medium", "VARCHAR(255)"),
   ("data_campaign", "VARCHAR(255)"),
   ("data_clickId", "VARCHAR(255)"),
   ("data_term", "VARCHAR(255)"),
   ("data_referrer", "VARCHAR(500)"),
   ("data_storage", "VARCHAR(255)"),
   ("data_isNew", "BOOLEAN"),
   ("data_count", "INTEGER"),
   ("data_order_id", "VARCHAR(255)"),
   ("data_domain", "VARCHAR(255)"),
   ("context", "TEXT"),
   ("custom", "TEXT"),
   ("globals", "TEXT"),
   ("user", "TEXT"),
   ("user_device", "VARCHAR(255)"),
   ("user_session", "VARCHAR(255)"),
   ("nested", "TEXT"),
   ("consent", "TEXT"),
   ("event_id", "VARCHAR(255)"),
   ("trigger", "VARCHAR(255)"),
   ("entity", "VARCHAR(255)"),
   ("action", "VARCHAR(255)"),
   ("timing", "VARCHAR(255)"),
   ("group", "VARCHAR(255)"),
   ("count", "INTEGER"),
   ("version", "TEXT"),
   ("source", "TEXT"),
   ("source_id", "VARCHAR(255)"),
   ("source_previous_id", "VARCHAR(255)"),
   ("createdAt", "TIMESTAMP DEFAULT CURRENT_TIMESTAMP")]

/-- The names of the columns of the events table, in definition order. -/
def createTableColumns : List String := eventsTableColumns.map Prod.fst

/-- The warehouse state the bootstrap handler manipulates: the definition of
the events table when it exists. -/
def DBState := Option (List (String × String))

/-- get_redshift_credentials: a ClientError is caught, printed and turned into
None; every other failure (including a SecretString that is not valid JSON)
propagates.  The text of the caught exception is elided from the printed
line. -/
def get_redshift_credentials (w : SetupWorld) (secret_name : String) :
    Except Unit (Option JVal) × List String :=
  let region := w.region.getD "eu-central-1"
  match w.fetch with
  | FetchOutcome.ok secret => (Except.ok (some secret), [])
  | FetchOutcome.badJson => (Except.error (), [])
  | FetchOutcome.clientError =>
    (Except.ok none,
     ["Error getting Redshift credentials: ",
      "Region: " ++ region ++ ", Secret: " ++ secret_name])
  | FetchOutcome.otherError => (Except.error (), [])

/-- The semantics of CREATE TABLE IF NOT EXISTS events: create the table when
it is absent, leave it untouched when any table of that name exists. -/
def execCreateEventsTable (db : DBState) : DBState :=
  match db with
  | none => some eventsTableColumns
  | some t => some t

/-- create_database_schema: connect, execute the CREATE TABLE IF NOT EXISTS
statement, commit, close; except Exception turns any failure into a printed
line and False.  The exception text is elided from the printed line.  The
connection arguments only influence the connect outcome, which w.connectOk
records. -/
def create_database_schema (w : SetupWorld) (host : JVal) (port : JVal)
    (database : JVal) (username : JVal) (password : JVal) (db : DBState) :
    Bool × DBState × List String :=
  if w.connectOk = false then
    (false, db, ["❌ Error setting up database schema: "])
  else if w.executeOk = false then
    (false, db, ["❌ Error setting up database schema: "])
  else
    let db' := execCreateEventsTable db
    if w.commitOk = false then
      (false, db', ["✅ Events table created successfully",
                    "❌ Error setting up database schema: "])
    else if w.closeOk = false then
      (false, db', ["✅ Events table created successfully",
                    "❌ Error setting up database schema: "])
    else
      (true, db', ["✅ Events table created successfully",
                   "✅ Database schema setup completed successfully"])

/-- The response dict of the setup handler. -/
structure SetupResponse where
  statusCode : Nat
  body : String
deriving DecidableEq

/-- lambda_handler of setup_database_lambda.py: resolve the secret name,
fetch the credentials, fail with 500 on a falsy credentials value, print the
whole credentials record and the password, then create the schema and map its
boolean outcome to 200 or 500.  The handler body has no try block of its own,
so an exception from credential retrieval (anything but a ClientError) or
from an attribute access on a non-dict credentials value propagates out. -/
def lambda_handler (w : SetupWorld) (db : DBState) :
    Except Unit SetupResponse × DBState × List String :=
  let secret_name := w.secretName.getD "redshift-credentials"
  let tr0 := ["🚀 Starting database setup process",
              "🔐 Getting credentials from Secrets Manager: " ++ secret_name]
  match get_redshift_credentials w secret_name with
  | (Except.error e, tr) => (Except.error e, db, tr0 ++ tr)
  | (Except.ok credsOpt, tr) =>
    let trc := tr0 ++ tr
    match credsOpt with
    | none =>
      (Except.ok ⟨500, jdumps (JVal.obj [("error", JVal.str "Failed to get Redshift credentials")])⟩,
       db, trc ++ ["❌ Failed to get Redshift credentials"])
    | some creds =>
      if pyFalsy creds then
        (Except.ok ⟨500, jdumps (JVal.obj [("error", JVal.str "Failed to get Redshift credentials")])⟩,
         db, trc ++ ["❌ Failed to get Redshift credentials"])
      else
        match creds with
        | JVal.obj m =>
          let host := dget m "host"
          let database := pyGetD m "database" (JVal.str "dev")
          let tr2 := trc ++
            ["✅ Credentials retrieved successfully",
             "📡 Using endpoint: " ++ pyStr host,
             "🏗️  Creating database schema...",
             pyRepr (JVal.obj m),
             "password:  " ++ pyStr (dget m "password")]
          match create_database_schema w host (pyGetD m "port" (JVal.num 5439))
              database (pyGetD m "username" (JVal.str "admin")) (dget m "password") db with
          | (true, db', tr3) =>
            (Except.ok ⟨200, jdumps (JVal.obj
                [("message", JVal.str "Database setup completed successfully"),
                 ("endpoint", host), ("database", database)])⟩,
             db', tr2 ++ tr3 ++ ["🎉 Database setup completed successfully!"])
          | (false, db', tr3) =>
            (Except.ok ⟨500, jdumps (JVal.obj [("error", JVal.str "Database setup failed")])⟩,
             db', tr2 ++ tr3 ++ ["❌ Database setup failed"])
        | _ =>
          -- line 123 calls credentials.get on a truthy non-dict value:
          -- AttributeError propagates after line 122 has printed
          (Except.error (), db, trc ++ ["✅ Credentials retrieved successfully"])

end SetupDatabaseLambda

/-- Success test on an exception-or-value result. -/
def exOk {A : Type} : Except Unit A → Bool
  | Except.ok _ => true
  | Except.error _ => false

/-- Digit characters rendered from a value at most 9 pass the digit test. -/
theorem isDigitChar_digitChar (d : Nat) (h : d ≤ 9) : isDigitChar (digitChar d) = true := by
  interval_cases d <;> decide

/-- The isoformat rendering of any in-range datetime passes the ISO-8601
checker. -/
theorem validISO8601_isoformat (d : PyDateTime) (h : ValidDT d) :
    validISO8601 (isoformat d) = true := by
  obtain ⟨hy1, hy2, hm1, hm2, hd1, hd2, hh, hn, hs, hu⟩ := h
  by_cases hmu : d.microsecond = 0 <;>
    simp only [validISO8601, isoformat, hmu, if_true, if_false, ite_true, ite_false,
      pad4, pad2, pad6, List.cons_append, List.nil_append] <;>
    simp only [validISO8601List, Bool.and_eq_true, beq_iff_eq, List.all_cons, List.all_nil,
      List.length_cons, List.length_nil] <;>
    and_intros <;>
    first
      | rfl
      | trivial
      | decide
      | (apply isDigitChar_digitChar; omega)

/-- Claim C4: convert_timestamp is total over every input value, including
non-numeric ones and integers the platform conversion rejects: whatever the
outcome of the underlying datetime.fromtimestamp call, the function returns a
valid ISO-8601 string and never raises (it is a plain function into String),
and whenever the conversion of the input fails the returned string is the
isoformat of the current wall-clock time. -/
theorem claim_C4 (fromts : JVal → Option PyDateTime) (now : PyDateTime) (v : JVal)
    (hf : ∀ u dt, fromts u = some dt → ValidDT dt) (hn : ValidDT now) :
    validISO8601 (convert_timestamp fromts now v) = true ∧
    (fromts v = none → convert_timestamp fromts now v = isoformat now) := by
  constructor
  · unfold convert_timestamp
    cases hv : fromts v with
    | none => exact validISO8601_isoformat now hn
    | some dt => exact validISO8601_isoformat dt (hf v dt hv)
  · intro hv
    unfold convert_timestamp
    rw [hv]

/-- Witness for claim C4 at a conversion that always fails and a concrete
current time. -/
theorem claim_C4_witness :
    validISO8601 (convert_timestamp (fun _ => none) ⟨2024, 1, 1, 0, 0, 0, 0⟩ JVal.null) = true ∧
    ((fun _ : JVal => (none : Option PyDateTime)) JVal.null = none →
      convert_timestamp (fun _ => none) ⟨2024, 1, 1, 0, 0, 0, 0⟩ JVal.null =
        isoformat ⟨2024, 1, 1, 0, 0, 0, 0⟩) :=
  claim_C4 (fun _ => none) ⟨2024, 1, 1, 0, 0, 0, 0⟩ JVal.null
    (fun _ _ h => by cases h) (by decide)

/-- Claim C5: the Row is a tuple of exactly 36 values, the INSERT statement
names exactly 36 columns, that column list appears in the same relative order
inside the CREATE TABLE definition of the events table, and pairing the
columns with the row positionally aligns each named column with the value
built for it. -/
theorem claim_C5 :
    (∀ ts e dm um sm, (LambdaFunction.rowValues ts e dm um sm).length = 36) ∧
    LambdaFunction.insertColumns.length = 36 ∧
    List.Sublist LambdaFunction.insertColumns SetupDatabaseLambda.createTableColumns ∧
    (∀ ts e dm um sm,
      let z := LambdaFunction.insertColumns.zip (LambdaFunction.rowValues ts e dm um sm)
      z.lookup "timestamp" = some (JVal.str ts) ∧
      z.lookup "event" = some (dget e "event") ∧
      z.lookup "data_id" = some (dget dm "id") ∧
      z.lookup "data_device" = some (dget dm "device") ∧
      z.lookup "user_device" = some (dget um "device") ∧
      z.lookup "user_session" = some (dget um "session") ∧
      z.lookup "source_id" = some (dget sm "id") ∧
      z.lookup "source_previous_id" = some (dget sm "previous_id")) := by
  refine ⟨fun ts e dm um sm => rfl, rfl, by decide, fun ts e dm um sm => ?_⟩
  exact ⟨rfl, rfl, rfl, rfl, rfl, rfl, rfl, rfl⟩

/-- Every response the try body of lambda_handler can return carries the
shared header dict. -/
theorem handlerCore_headers (loads : String → Option JVal)
    (fromts : JVal → Option PyDateTime) (now : PyDateTime)
    (w : LambdaFunction.WriterWorld) (req : List (String × JVal))
    (r : LambdaFunction.HttpResponse)
    (h : LambdaFunction.handlerCore loads fromts now w req = Except.ok r) :
    r.headers = LambdaFunction.corsHeaders := by
  revert h
  unfold LambdaFunction.handlerCore
  repeat' split
  all_goals intro h
  all_goals
    first
      | (cases h; rfl)
      | exact Except.noConfusion h

/-- Claim C7: every terminal outcome of the Request Handler, on every input,
carries the identical fixed header set (content type plus the three CORS
headers with their exact values). -/
theorem claim_C7 (loads : String → Option JVal) (fromts : JVal → Option PyDateTime)
    (now : PyDateTime) (w : LambdaFunction.WriterWorld) (req : List (String × JVal)) :
    (LambdaFunction.lambda_handler loads fromts now w req).headers =
      [("Content-Type", "application/json"),
       ("Access-Control-Allow-Origin", "*"),
       ("Access-Control-Allow-Headers", "Content-Type,X-Amz-Date,Authorization,X-Api-Key,X-Amz-Security-Token"),
       ("Access-Control-Allow-Methods", "POST,OPTIONS")] := by
  unfold LambdaFunction.lambda_handler
  cases hc : LambdaFunction.handlerCore loads fromts now w req with
  | ok r => exact handlerCore_headers loads fromts now w req r hc
  | error e => rfl

/-- Claim C3: a request without a body field gets 400 Missing request body; a
request whose body is a string that json.loads rejects gets 400 Invalid JSON
in request body; and whenever the try body of the handler raises, the
outermost handler converts it to 500 Internal server error. -/
theorem claim_C3 (loads : String → Option JVal) (fromts : JVal → Option PyDateTime)
    (now : PyDateTime) (w : LambdaFunction.WriterWorld) (req : List (String × JVal)) :
    (req.lookup "body" = none →
      LambdaFunction.lambda_handler loads fromts now w req =
        ⟨400, LambdaFunction.corsHeaders, "\x7b\"error\": \"Missing request body\"\x7d"⟩) ∧
    (∀ s, req.lookup "body" = some (JVal.str s) → loads s = none →
      LambdaFunction.lambda_handler loads fromts now w req =
        ⟨400, LambdaFunction.corsHeaders, "\x7b\"error\": \"Invalid JSON in request body\"\x7d"⟩) ∧
    (LambdaFunction.handlerCore loads fromts now w req = Except.error () →
      LambdaFunction.lambda_handler loads fromts now w req =
        ⟨500, LambdaFunction.corsHeaders, "\x7b\"error\": \"Internal server error\"\x7d"⟩) := by
  refine ⟨fun h => ?_, fun s hb hl => ?_, fun h => ?_⟩
  · unfold LambdaFunction.lambda_handler LambdaFunction.handlerCore
    rw [h]
    rfl
  · unfold LambdaFunction.lambda_handler LambdaFunction.handlerCore
    rw [hb]
    dsimp only
    rw [hl]
    rfl
  · unfold LambdaFunction.lambda_handler
    rw [h]
    rfl

/-- Witness for claim C3: the three outcomes at concrete requests (no body; a
string body the parser rejects; a numeric body, on which json.loads raises
TypeError and the try body propagates it). -/
theorem claim_C3_witness :
    (LambdaFunction.lambda_handler (fun _ => none) (fun _ => none) ⟨2024, 1, 1, 0, 0, 0, 0⟩
        ⟨true, true, true, true, true, true, true, true⟩ [] =
      ⟨400, LambdaFunction.corsHeaders, "\x7b\"error\": \"Missing request body\"\x7d"⟩) ∧
    (LambdaFunction.lambda_handler (fun _ => none) (fun _ => none) ⟨2024, 1, 1, 0, 0, 0, 0⟩
        ⟨true, true, true, true, true, true, true, true⟩ [("body", JVal.str "not json")] =
      ⟨400, LambdaFunction.corsHeaders, "\x7b\"error\": \"Invalid JSON in request body\"\x7d"⟩) ∧
    (LambdaFunction.lambda_handler (fun _ => none) (fun _ => none) ⟨2024, 1, 1, 0, 0, 0, 0⟩
        ⟨true, true, true, true, true, true, true, true⟩ [("body", JVal.num 1)] =
      ⟨500, LambdaFunction.corsHeaders, "\x7b\"error\": \"Internal server error\"\x7d"⟩) :=
  ⟨(claim_C3 (fun _ => none) (fun _ => none) ⟨2024, 1, 1, 0, 0, 0, 0⟩
      ⟨true, true, true, true, true, true, true, true⟩ []).1 rfl,
   (claim_C3 (fun _ => none) (fun _ => none) ⟨2024, 1, 1, 0, 0, 0, 0⟩
      ⟨true, true, true, true, true, true, true, true⟩ [("body", JVal.str "not json")]).2.1
      "not json" rfl rfl,
   (claim_C3 (fun _ => none) (fun _ => none) ⟨2024, 1, 1, 0, 0, 0, 0⟩
      ⟨true, true, true, true, true, true, true, true⟩ [("body", JVal.num 1)]).2.2 rfl⟩

/-- Claim C6: a request whose body parses to a JSON object missing event or
timestamp (or both) gets 400 with a body listing exactly the missing fields in
Python list repr form. -/
theorem claim_C6 (loads : String → Option JVal) (fromts : JVal → Option PyDateTime)
    (now : PyDateTime) (w : LambdaFunction.WriterWorld) (req : List (String × JVal))
    (s : String) (m : List (String × JVal))
    (hb : req.lookup "body" = some (JVal.str s))
    (hl : loads s = some (JVal.obj m))
    (hmiss : ((if (m.lookup "event").isSome then [] else ["event"]) ++
              (if (m.lookup "timestamp").isSome then [] else ["timestamp"])) ≠ []) :
    LambdaFunction.lambda_handler loads fromts now w req =
      ⟨400, LambdaFunction.corsHeaders,
       "\x7b\"error\": \"Missing required fields: " ++
         pyRepr (JVal.arr ((((if (m.lookup "event").isSome then [] else ["event"]) ++
           (if (m.lookup "timestamp").isSome then [] else ["timestamp"])).map JVal.str))) ++
         "\"\x7d"⟩ := by
  have hm : LambdaFunction.missingFields ["event", "timestamp"] (JVal.obj m) =
      Except.ok ((if (m.lookup "event").isSome then [] else ["event"]) ++
                 (if (m.lookup "timestamp").isSome then [] else ["timestamp"])) := by
    cases hc1 : (m.lookup "event").isSome <;> cases hc2 : (m.lookup "timestamp").isSome <;>
      simp [LambdaFunction.missingFields, pyContains, hc1, hc2]
  unfold LambdaFunction.lambda_handler LambdaFunction.handlerCore
  rw [hb]
  dsimp only
  rw [hl]
  dsimp only
  rw [hm]
  cases hc1 : (m.lookup "event").isSome <;> cases hc2 : (m.lookup "timestamp").isSome <;>
    simp only [hc1, hc2, if_true, if_false, ite_true, ite_false] at hmiss ⊢ <;>
    first
      | (exact absurd rfl hmiss)
      | rfl

/-- Witness for claim C6: the body parsing to the object with only an event
key yields exactly the missing-timestamp error body. -/
theorem claim_C6_witness :
    LambdaFunction.lambda_handler (fun _ => some (JVal.obj [("event", JVal.str "click")]))
      (fun _ => none) ⟨2024, 1, 1, 0, 0, 0, 0⟩ ⟨true, true, true, true, true, true, true, true⟩
      [("body", JVal.str "\x7b\"event\":\"click\"\x7d")] =
      ⟨400, LambdaFunction.corsHeaders,
       "\x7b\"error\": \"Missing required fields: [\x27timestamp\x27]\"\x7d"⟩ := by
  have h := claim_C6 (fun _ => some (JVal.obj [("event", JVal.str "click")]))
      (fun _ => none) ⟨2024, 1, 1, 0, 0, 0, 0⟩ ⟨true, true, true, true, true, true, true, true⟩
      [("body", JVal.str "\x7b\"event\":\"click\"\x7d")] "\x7b\"event\":\"click\"\x7d"
      [("event", JVal.str "click")] rfl rfl (by decide)
  exact h

/-- Claim C1: on an event whose event and timestamp keys are present and whose
data, user and source sub-values are objects (absent buckets defaulting to the
empty object), the mapping succeeds and produces the row built from those
sub-objects; each scalar extract slot equals the lookup of its own key in its
own sub-object (the stored value when present, null when absent, which is what
dget computes); and the user_device and data_device slots are functions of the
user and data objects alone, whatever the source object contains (in
particular a device key under source never determines them). -/
theorem claim_C1 (fromts : JVal → Option PyDateTime) (now : PyDateTime)
    (e dm um sm : List (String × JVal))
    (hev : (e.lookup "event").isSome = true)
    (hts : (e.lookup "timestamp").isSome = true)
    (hd : pyGetD e "data" (JVal.obj []) = JVal.obj dm)
    (hu : pyGetD e "user" (JVal.obj []) = JVal.obj um)
    (hsrc : pyGetD e "source" (JVal.obj []) = JVal.obj sm) :
    (LambdaFunction.mapRow fromts now (JVal.obj e) =
      Except.ok (LambdaFunction.rowValues
        (convert_timestamp fromts now (pyGetD e "timestamp" (JVal.num 0))) e dm um sm)) ∧
    (∀ ts2 e2 dm2 um2 sm2,
      (LambdaFunction.rowValues ts2 e2 dm2 um2 sm2).get? 21 = some (dget um2 "device") ∧
      (LambdaFunction.rowValues ts2 e2 dm2 um2 sm2).get? 4 = some (dget dm2 "device")) ∧
    (let row := LambdaFunction.rowValues
        (convert_timestamp fromts now (pyGetD e "timestamp" (JVal.num 0))) e dm um sm
     row.get? 3 = some (dget dm "id") ∧
     row.get? 4 = some (dget dm "device") ∧
     row.get? 5 = some (dget dm "marketing") ∧
     row.get? 6 = some (dget dm "source") ∧
     row.get? 7 = some (dget dm "medium") ∧
     row.get? 8 = some (dget dm "campaign") ∧
     row.get? 9 = some (dget dm "clickId") ∧
     row.get? 10 = some (dget dm "term") ∧
     row.get? 11 = some (dget dm "referrer") ∧
     row.get? 12 = some (dget dm "storage") ∧
     row.get? 13 = some (dget dm "isNew") ∧
     row.get? 14 = some (dget dm "count") ∧
     row.get? 15 = some (dget dm "order_id") ∧
     row.get? 16 = some (dget dm "domain") ∧
     row.get? 21 = some (dget um "device") ∧
     row.get? 22 = some (dget um "session") ∧
     row.get? 34 = some (dget sm "id") ∧
     row.get? 35 = some (dget sm "previous_id")) ∧
    (∀ (mm : List (String × JVal)) (k : String),
      (∀ v, mm.lookup k = some v → dget mm k = v) ∧
      (mm.lookup k = none → dget mm k = JVal.null)) := by
  refine ⟨?_, fun ts2 e2 dm2 um2 sm2 => ⟨rfl, rfl⟩, ?_, fun mm k => ⟨fun v hv => ?_, fun hv => ?_⟩⟩
  · simp only [LambdaFunction.mapRow, asObj, hd, hu, hsrc]
  · exact ⟨rfl, rfl, rfl, rfl, rfl, rfl, rfl, rfl, rfl, rfl, rfl, rfl, rfl, rfl, rfl, rfl, rfl, rfl⟩
  · unfold dget
    rw [hv]
  · unfold dget
    rw [hv]

/-- Witness for claim C1 at a concrete event whose source object carries a
device key while the user object carries its own. -/
theorem claim_C1_witness :
    (LambdaFunction.mapRow (fun _ => none) ⟨2024, 1, 1, 0, 0, 0, 0⟩
      (JVal.obj [("event", JVal.str "click"), ("timestamp", JVal.num 1700000000000),
                 ("user", JVal.obj [("device", JVal.str "phone")]),
                 ("source", JVal.obj [("device", JVal.str "other"), ("id", JVal.str "s1")])]) =
      Except.ok (LambdaFunction.rowValues
        (convert_timestamp (fun _ => none) ⟨2024, 1, 1, 0, 0, 0, 0⟩
          (pyGetD [("event", JVal.str "click"), ("timestamp", JVal.num 1700000000000),
                   ("user", JVal.obj [("device", JVal.str "phone")]),
                   ("source", JVal.obj [("device", JVal.str "other"), ("id", JVal.str "s1")])]
            "timestamp" (JVal.num 0)))
        [("event", JVal.str "click"), ("timestamp", JVal.num 1700000000000),
         ("user", JVal.obj [("device", JVal.str "phone")]),
         ("source", JVal.obj [("device", JVal.str "other"), ("id", JVal.str "s1")])]
        [] [("device", JVal.str "phone")] [("device", JVal.str "other"), ("id", JVal.str "s1")])) ∧
    (LambdaFunction.rowValues "t" [] [] [("device", JVal.str "phone")]
      [("device", JVal.str "other"), ("id", JVal.str "s1")]).get? 21 =
      some (dget [("device", JVal.str "phone")] "device") :=
  ⟨(claim_C1 (fun _ => none) ⟨2024, 1, 1, 0, 0, 0, 0⟩
      [("event", JVal.str "click"), ("timestamp", JVal.num 1700000000000),
       ("user", JVal.obj [("device", JVal.str "phone")]),
       ("source", JVal.obj [("device", JVal.str "other"), ("id", JVal.str "s1")])]
      [] [("device", JVal.str "phone")] [("device", JVal.str "other"), ("id", JVal.str "s1")]
      rfl rfl rfl rfl rfl).1,
   ((claim_C1 (fun _ => none) ⟨2024, 1, 1, 0, 0, 0, 0⟩
      [("event", JVal.str "click"), ("timestamp", JVal.num 1700000000000),
       ("user", JVal.obj [("device", JVal.str "phone")]),
       ("source", JVal.obj [("device", JVal.str "other"), ("id", JVal.str "s1")])]
      [] [("device", JVal.str "phone")] [("device", JVal.str "other"), ("id", JVal.str "s1")]
      rfl rfl rfl rfl rfl).2.1 "t" [] []
      [("device", JVal.str "phone")] [("device", JVal.str "other"), ("id", JVal.str "s1")]).1⟩

/-- Claim C2: with the two unguarded cleanup calls of the except block not
themselves raising, the Event Writer returns a boolean for every event and
every exception arising during connection, mapping, statement execution or
commit (True exactly on the all-success run, False otherwise) and never
raises past its own boundary; and on an exception after the connection was
opened it attempts rollback and then close, in that order, as the last two
calls before returning False. -/
theorem claim_C2 (fromts : JVal → Option PyDateTime) (now : PyDateTime)
    (w : LambdaFunction.WriterWorld) (e : JVal)
    (hrb : w.rollbackOk = true) (hrc : w.rollbackCloseOk = true) :
    (∃ b, (LambdaFunction.insert_event_to_redshift fromts now w e).1 = Except.ok b) ∧
    (w.connectOk = false →
      LambdaFunction.insert_event_to_redshift fromts now w e =
        (Except.ok false, [LambdaFunction.Act.connect])) ∧
    (w.connectOk = true →
      (w.cursorOk && exOk (LambdaFunction.mapRow fromts now e) && w.executeOk &&
        w.commitOk && w.cursorCloseOk && w.closeOk) = false →
      (LambdaFunction.insert_event_to_redshift fromts now w e).1 = Except.ok false ∧
      List.isSuffixOf [LambdaFunction.Act.rollback, LambdaFunction.Act.close]
        (LambdaFunction.insert_event_to_redshift fromts now w e).2 = true) ∧
    (w.connectOk = true →
      (w.cursorOk && exOk (LambdaFunction.mapRow fromts now e) && w.executeOk &&
        w.commitOk && w.cursorCloseOk && w.closeOk) = true →
      (LambdaFunction.insert_event_to_redshift fromts now w e).1 = Except.ok true) := by
  obtain ⟨co, cu, ex, cm, ccl, cl, rb, rc⟩ := w
  simp only at hrb hrc
  subst hrb
  subst hrc
  cases hm : LambdaFunction.mapRow fromts now e <;>
    cases co <;> cases cu <;> cases ex <;> cases cm <;> cases ccl <;> cases cl <;>
    simp [LambdaFunction.insert_event_to_redshift, LambdaFunction.writerCleanup,
      exOk, hm, List.isSuffixOf]

/-- Witness for claim C2 at a concrete world whose commit fails. -/
theorem claim_C2_witness :
    (∃ b, (LambdaFunction.insert_event_to_redshift (fun _ => none) ⟨2024, 1, 1, 0, 0, 0, 0⟩
      ⟨true, true, true, false, true, true, true, true⟩ (JVal.obj [])).1 = Except.ok b) ∧
    (true = false →
      LambdaFunction.insert_event_to_redshift (fun _ => none) ⟨2024, 1, 1, 0, 0, 0, 0⟩
        ⟨true, true, true, false, true, true, true, true⟩ (JVal.obj []) =
        (Except.ok false, [LambdaFunction.Act.connect])) ∧
    (true = true →
      (true && exOk (LambdaFunction.mapRow (fun _ => none) ⟨2024, 1, 1, 0, 0, 0, 0⟩
        (JVal.obj [])) && true && false && true && true) = false →
      (LambdaFunction.insert_event_to_redshift (fun _ => none) ⟨2024, 1, 1, 0, 0, 0, 0⟩
        ⟨true, true, true, false, true, true, true, true⟩ (JVal.obj [])).1 = Except.ok false ∧
      List.isSuffixOf [LambdaFunction.Act.rollback, LambdaFunction.Act.close]
        (LambdaFunction.insert_event_to_redshift (fun _ => none) ⟨2024, 1, 1, 0, 0, 0, 0⟩
          ⟨true, true, true, false, true, true, true, true⟩ (JVal.obj [])).2 = true) ∧
    (true = true →
      (true && exOk (LambdaFunction.mapRow (fun _ => none) ⟨2024, 1, 1, 0, 0, 0, 0⟩
        (JVal.obj [])) && true && false && true && true) = true →
      (LambdaFunction.insert_event_to_redshift (fun _ => none) ⟨2024, 1, 1, 0, 0, 0, 0⟩
        ⟨true, true, true, false, true, true, true, true⟩ (JVal.obj [])).1 = Except.ok true) := by
  have h := claim_C2 (fun _ => none) ⟨2024, 1, 1, 0, 0, 0, 0⟩
    ⟨true, true, true, false, true, true, true, true⟩ (JVal.obj []) rfl rfl
  exact h

/-- Claim C8: with both invocations finding a non-empty credentials object and
their connection, statement, commit and close succeeding, running the Schema
Bootstrap Handler twice in sequence gives a 200 (no-error) result on the
second invocation and the second run leaves the warehouse state exactly as the
first run left it (the second CREATE TABLE IF NOT EXISTS is a no-op). -/
theorem claim_C8 (w1 w2 : SetupDatabaseLambda.SetupWorld) (db : SetupDatabaseLambda.DBState)
    (m1 m2 : List (String × JVal))
    (h1f : w1.fetch = SetupDatabaseLambda.FetchOutcome.ok (JVal.obj m1)) (h1n : m1.isEmpty = false)
    (h1c : w1.connectOk = true) (h1e : w1.executeOk = true) (h1m : w1.commitOk = true)
    (h1cl : w1.closeOk = true)
    (h2f : w2.fetch = SetupDatabaseLambda.FetchOutcome.ok (JVal.obj m2)) (h2n : m2.isEmpty = false)
    (h2c : w2.connectOk = true) (h2e : w2.executeOk = true) (h2m : w2.commitOk = true)
    (h2cl : w2.closeOk = true) :
    (∃ resp, (SetupDatabaseLambda.lambda_handler w2
        (SetupDatabaseLambda.lambda_handler w1 db).2.1).1 = Except.ok resp ∧
      resp.statusCode = 200) ∧
    (SetupDatabaseLambda.lambda_handler w2 (SetupDatabaseLambda.lambda_handler w1 db).2.1).2.1 =
      (SetupDatabaseLambda.lambda_handler w1 db).2.1 := by
  obtain ⟨sn1, rg1, f1, c1, e1, cm1, cl1⟩ := w1
  obtain ⟨sn2, rg2, f2, c2, e2, cm2, cl2⟩ := w2
  simp only at h1f h1c h1e h1m h1cl h2f h2c h2e h2m h2cl
  subst h1f h1c h1e h1m h1cl h2f h2c h2e h2m h2cl
  cases db <;>
    simp [SetupDatabaseLambda.lambda_handler, SetupDatabaseLambda.get_redshift_credentials,
      SetupDatabaseLambda.create_database_schema, SetupDatabaseLambda.execCreateEventsTable,
      pyFalsy, h1n, h2n]

/-- Witness for claim C8 at concrete worlds and an initially empty warehouse. -/
theorem claim_C8_witness :
    (∃ resp, (SetupDatabaseLambda.lambda_handler
        ⟨none, none, SetupDatabaseLambda.FetchOutcome.ok (JVal.obj [("host", JVal.str "h")]),
         true, true, true, true⟩
        (SetupDatabaseLambda.lambda_handler
          ⟨none, none, SetupDatabaseLambda.FetchOutcome.ok (JVal.obj [("host", JVal.str "h")]),
           true, true, true, true⟩ none).2.1).1 = Except.ok resp ∧
      resp.statusCode = 200) ∧
    (SetupDatabaseLambda.lambda_handler
        ⟨none, none, SetupDatabaseLambda.FetchOutcome.ok (JVal.obj [("host", JVal.str "h")]),
         true, true, true, true⟩
        (SetupDatabaseLambda.lambda_handler
          ⟨none, none, SetupDatabaseLambda.FetchOutcome.ok (JVal.obj [("host", JVal.str "h")]),
           true, true, true, true⟩ none).2.1).2.1 =
      (SetupDatabaseLambda.lambda_handler
        ⟨none, none, SetupDatabaseLambda.FetchOutcome.ok (JVal.obj [("host", JVal.str "h")]),
         true, true, true, true⟩ none).2.1 :=
  claim_C8 ⟨none, none, SetupDatabaseLambda.FetchOutcome.ok (JVal.obj [("host", JVal.str "h")]),
      true, true, true, true⟩
    ⟨none, none, SetupDatabaseLambda.FetchOutcome.ok (JVal.obj [("host", JVal.str "h")]),
      true, true, true, true⟩ none
    [("host", JVal.str "h")] [("host", JVal.str "h")]
    rfl rfl rfl rfl rfl rfl rfl rfl rfl rfl rfl rfl

/-- Counterexample to claim C9: a credential retrieval failure in which the
secret is fetched but its SecretString is not valid JSON makes json.loads
raise JSONDecodeError inside get_redshift_credentials, whose except clause
catches only ClientError, and the handler body has no try of its own: the
exception propagates out of the Schema Bootstrap Handler instead of becoming
a structured 500 result. -/
theorem claim_C9_counterexample :
    (SetupDatabaseLambda.lambda_handler
      ⟨none, none, SetupDatabaseLambda.FetchOutcome.badJson, true, true, true, true⟩ none).1 =
      Except.error () := rfl

/-- Claim C9 (amended): for a ClientError during credential retrieval, and for
any connection, statement, commit or close failure during schema creation
(with a usable credentials object), the handler logs an error line and returns
statusCode 500 with an error body rather than raising; credential-retrieval
failures of other kinds propagate out uncaught. -/
theorem claim_C9 (w : SetupDatabaseLambda.SetupWorld) (db : SetupDatabaseLambda.DBState)
    (m : List (String × JVal))
    (hcase : w.fetch = SetupDatabaseLambda.FetchOutcome.clientError ∨
      (w.fetch = SetupDatabaseLambda.FetchOutcome.ok (JVal.obj m) ∧ m.isEmpty = false ∧
        (w.connectOk && w.executeOk && w.commitOk && w.closeOk) = false)) :
    (∃ body, (SetupDatabaseLambda.lambda_handler w db).1 = Except.ok ⟨500, body⟩) ∧
    (∃ line, line ∈ (SetupDatabaseLambda.lambda_handler w db).2.2 ∧
      (line = "❌ Failed to get Redshift credentials" ∨ line = "❌ Database setup failed")) := by
  obtain ⟨sn, rg, f, c, e, cm, cl⟩ := w
  rcases hcase with hc | ⟨hf, hn, hflags⟩
  · simp only at hc
    subst hc
    refine ⟨⟨_, rfl⟩, "❌ Failed to get Redshift credentials", ?_, Or.inl rfl⟩
    simp [SetupDatabaseLambda.lambda_handler, SetupDatabaseLambda.get_redshift_credentials]
  · simp only at hf hflags
    subst hf
    cases c <;> cases e <;> cases cm <;> cases cl <;> simp at hflags <;>
      refine ⟨?_, "❌ Database setup failed", ?_, Or.inr rfl⟩ <;>
      simp [SetupDatabaseLambda.lambda_handler, SetupDatabaseLambda.get_redshift_credentials,
        SetupDatabaseLambda.create_database_schema, pyFalsy, hn]

/-- Witness for the amended claim C9 at a concrete ClientError world. -/
theorem claim_C9_witness :
    (∃ body, (SetupDatabaseLambda.lambda_handler
      ⟨none, none, SetupDatabaseLambda.FetchOutcome.clientError, true, true, true, true⟩ none).1 =
        Except.ok ⟨500, body⟩) ∧
    (∃ line, line ∈ (SetupDatabaseLambda.lambda_handler
      ⟨none, none, SetupDatabaseLambda.FetchOutcome.clientError, true, true, true, true⟩ none).2.2 ∧
      (line = "❌ Failed to get Redshift credentials" ∨ line = "❌ Database setup failed")) :=
  claim_C9 ⟨none, none, SetupDatabaseLambda.FetchOutcome.clientError, true, true, true, true⟩
    none [] (Or.inl rfl)

/-- Appending to a common prefix is injective on strings. -/
theorem string_append_cancel (a b c : String) (h : a ++ b = a ++ c) : b = c := by
  have hd := congrArg String.data h
  simp only [String.data_append] at hd
  exact String.ext (List.append_cancel_left hd)

/-- Claim C10: whenever the Schema Bootstrap Handler retrieves a usable
credentials object, its log trace contains the whole credentials record and a
dedicated password line, both printed before any output of
create_database_schema (which is where connecting happens); consequently two
runs that differ only in the secret password string produce different log
traces. -/
theorem claim_C10 (w w2 : SetupDatabaseLambda.SetupWorld) (db : SetupDatabaseLambda.DBState)
    (m m2 : List (String × JVal)) (p1 p2 : String)
    (hf : w.fetch = SetupDatabaseLambda.FetchOutcome.ok (JVal.obj m)) (hn : m.isEmpty = false)
    (hf2 : w2.fetch = SetupDatabaseLambda.FetchOutcome.ok (JVal.obj m2)) (hn2 : m2.isEmpty = false)
    (hname : w2.secretName = w.secretName)
    (hp : m.lookup "password" = some (JVal.str p1))
    (hp2 : m2.lookup "password" = some (JVal.str p2))
    (hdiff : p1 ≠ p2) :
    (∃ tail, (SetupDatabaseLambda.lambda_handler w db).2.2 =
      ["🚀 Starting database setup process",
       "🔐 Getting credentials from Secrets Manager: " ++ (w.secretName.getD "redshift-credentials"),
       "✅ Credentials retrieved successfully",
       "📡 Using endpoint: " ++ pyStr (dget m "host"),
       "🏗️  Creating database schema...",
       pyRepr (JVal.obj m),
       "password:  " ++ p1] ++
      (SetupDatabaseLambda.create_database_schema w (dget m "host")
        (pyGetD m "port" (JVal.num 5439)) (pyGetD m "database" (JVal.str "dev"))
        (pyGetD m "username" (JVal.str "admin")) (dget m "password") db).2.2 ++ tail) ∧
    (SetupDatabaseLambda.lambda_handler w db).2.2 ≠ (SetupDatabaseLambda.lambda_handler w2 db).2.2 := by
  obtain ⟨sn, rg, f, c, e, cm, cl⟩ := w
  obtain ⟨sn2, rg2, f2, c2, e2, cm2, cl2⟩ := w2
  simp only at hf hf2 hname
  subst hf hf2 hname
  have hpw : dget m "password" = JVal.str p1 := by unfold dget; rw [hp]
  have hpw2 : dget m2 "password" = JVal.str p2 := by unfold dget; rw [hp2]
  constructor
  · rcases hcr : SetupDatabaseLambda.create_database_schema
        ⟨sn2, rg, SetupDatabaseLambda.FetchOutcome.ok (JVal.obj m), c, e, cm, cl⟩
        (dget m "host") (pyGetD m "port" (JVal.num 5439)) (pyGetD m "database" (JVal.str "dev"))
        (pyGetD m "username" (JVal.str "admin")) (JVal.str p1) db with ⟨b, db3, tr3⟩
    cases b <;>
      simp [SetupDatabaseLambda.lambda_handler, SetupDatabaseLambda.get_redshift_credentials,
        pyFalsy, hn, hpw, hcr, pyStr]
  · intro heq
    rcases hcr : SetupDatabaseLambda.create_database_schema
        ⟨sn2, rg, SetupDatabaseLambda.FetchOutcome.ok (JVal.obj m), c, e, cm, cl⟩
        (dget m "host") (pyGetD m "port" (JVal.num 5439)) (pyGetD m "database" (JVal.str "dev"))
        (pyGetD m "username" (JVal.str "admin")) (JVal.str p1) db with ⟨b, db3, tr3⟩
    rcases hcr2 : SetupDatabaseLambda.create_database_schema
        ⟨sn2, rg2, SetupDatabaseLambda.FetchOutcome.ok (JVal.obj m2), c2, e2, cm2, cl2⟩
        (dget m2 "host") (pyGetD m2 "port" (JVal.num 5439)) (pyGetD m2 "database" (JVal.str "dev"))
        (pyGetD m2 "username" (JVal.str "admin")) (JVal.str p2) db with ⟨b2, db4, tr4⟩
    have h6 := congrArg (fun l => l.get? 6) heq
    cases b <;> cases b2 <;>
      simp [SetupDatabaseLambda.lambda_handler, SetupDatabaseLambda.get_redshift_credentials,
        pyFalsy, hn, hn2, hpw, hpw2, hcr, hcr2, pyStr, List.get?] at h6 <;>
      first
        | exact hdiff h6
        | exact hdiff (string_append_cancel "password:  " p1 p2 h6)

/-- Witness for claim C10 at two concrete secrets differing only in the
password. -/
theorem claim_C10_witness :
    (∃ tail, (SetupDatabaseLambda.lambda_handler
        ⟨none, none, SetupDatabaseLambda.FetchOutcome.ok
          (JVal.obj [("host", JVal.str "h"), ("password", JVal.str "a")]), true, true, true, true⟩
        none).2.2 =
      ["🚀 Starting database setup process",
       "🔐 Getting credentials from Secrets Manager: " ++
         ((none : Option String).getD "redshift-credentials"),
       "✅ Credentials retrieved successfully",
       "📡 Using endpoint: " ++ pyStr (dget [("host", JVal.str "h"), ("password", JVal.str "a")] "host"),
       "🏗️  Creating database schema...",
       pyRepr (JVal.obj [("host", JVal.str "h"), ("password", JVal.str "a")]),
       "password:  " ++ "a"] ++
      (SetupDatabaseLambda.create_database_schema
        ⟨none, none, SetupDatabaseLambda.FetchOutcome.ok
          (JVal.obj [("host", JVal.str "h"), ("password", JVal.str "a")]), true, true, true, true⟩
        (dget [("host", JVal.str "h"), ("password", JVal.str "a")] "host")
        (pyGetD [("host", JVal.str "h"), ("password", JVal.str "a")] "port" (JVal.num 5439))
        (pyGetD [("host", JVal.str "h"), ("password", JVal.str "a")] "database" (JVal.str "dev"))
        (pyGetD [("host", JVal.str "h"), ("password", JVal.str "a")] "username" (JVal.str "admin"))
        (dget [("host", JVal.str "h"), ("password", JVal.str "a")] "password") none).2.2 ++ tail) ∧
    (SetupDatabaseLambda.lambda_handler
        ⟨none, none, SetupDatabaseLambda.FetchOutcome.ok
          (JVal.obj [("host", JVal.str "h"), ("password", JVal.str "a")]), true, true, true, true⟩
        none).2.2 ≠
      (SetupDatabaseLambda.lambda_handler
        ⟨none, none, SetupDatabaseLambda.FetchOutcome.ok
          (JVal.obj [("host", JVal.str "h"), ("password", JVal.str "b")]), true, true, true, true⟩
        none).2.2 :=
  claim_C10
    ⟨none, none, SetupDatabaseLambda.FetchOutcome.ok
      (JVal.obj [("host", JVal.str "h"), ("password", JVal.str "a")]), true, true, true, true⟩
    ⟨none, none, SetupDatabaseLambda.FetchOutcome.ok
      (JVal.obj [("host", JVal.str "h"), ("password", JVal.str "b")]), true, true, true, true⟩
    none
    [("host", JVal.str "h"), ("password", JVal.str "a")]
    [("host", JVal.str "h"), ("password", JVal.str "b")]
    "a" "b" rfl rfl rfl rfl rfl rfl rfl (by decide)
